import Mathlib

/-!
Verification of the session interaction engine of the `cli-ai-chat` terminal
client against its specification.  The definitions below are shallow
embeddings of the JavaScript source: strings are modelled as `List Char`,
the streaming loop of `AIClient.generateStreamingResponse` becomes a fold of
a per-fragment transition function over an explicit state record, the
SQLite-backed `Database` becomes a pure record of row lists, and the
`VimHandler` keypress dispatcher becomes a step function on a state record
together with a list of emitted effects.
-/

/-- The double-quote character (written via its code point to keep string
literals in this file free of escapes). -/
def dq : Char := Char.ofNat 34

/-- The single-quote character. -/
def squote : Char := Char.ofNat 39

/-- `startsWithL pre l` : `l` begins with `pre` (JS `String.startsWith`,
specialised to character lists). -/
def startsWithL : List Char → List Char → Bool
  | [], _ => true
  | _ :: _, [] => false
  | a :: as, b :: bs => a == b && startsWithL as bs

/-- `containsSub needle hay` : `needle` occurs contiguously in `hay`
(JS `String.includes`). -/
def containsSub (needle : List Char) : List Char → Bool
  | [] => startsWithL needle []
  | c :: cs => startsWithL needle (c :: cs) || containsSub needle cs

/-- The text before the first occurrence of `sep` (the whole list when `sep`
does not occur): JS `s.split(sep)[0]`. -/
def beforeFirst (sep : List Char) : List Char → List Char
  | [] => []
  | c :: cs => if startsWithL sep (c :: cs) then [] else c :: beforeFirst sep cs

/-- The text after the first occurrence of `sep`, when `sep` occurs. -/
def afterFirst (sep : List Char) : List Char → Option (List Char)
  | [] => if startsWithL sep [] then some [] else none
  | c :: cs =>
    if startsWithL sep (c :: cs) then some ((c :: cs).drop sep.length)
    else afterFirst sep cs

/-- JS `s.split(sep)[1]`: the text strictly between the first and second
occurrence of `sep` (up to the end when there is no second occurrence),
undefined (`none`) when `sep` does not occur at all. -/
def splitSecond (sep : List Char) (s : List Char) : Option (List Char) :=
  (afterFirst sep s).map (beforeFirst sep)

/-- The opening-marker literal `<FileExport` used by
`content.includes("<FileExport")` and `content.split("<FileExport")` in
`generateStreamingResponse`. -/
def openMarker : List Char := ("<FileExport" : String).data

/-- The literal head of the opening-tag pattern, `<FileExport name=` followed
by a double quote. -/
def openTagHead : List Char := ("<FileExport name=" : String).data ++ [dq]

/-- The closing-marker literal `</FileExport>`. -/
def closeMarker : List Char := ("</FileExport>" : String).data

/-- First match of the source regex `<FileExport name="([^"]+)">` in `cs`,
returning the captured filename.  At each position the engine matches the
literal head, then a non-empty run of non-quote characters, then a quote
immediately followed by `>`; since the capture class excludes the quote, the
capture necessarily extends to the first quote after the head. -/
def matchOpenTag : List Char → Option (List Char)
  | [] => none
  | c :: cs =>
    if startsWithL openTagHead (c :: cs) then
      let rest := (c :: cs).drop openTagHead.length
      let nm := rest.takeWhile (· != dq)
      let after := rest.drop nm.length
      if nm ≠ [] ∧ startsWithL [dq, '>'] after then some nm
      else matchOpenTag cs
    else matchOpenTag cs

/-- State threaded through the `for await` loop of
`AIClient.generateStreamingResponse` (src/unnamed/part_000, lines 340–398),
extended with the observable outputs: the file-ready events that would be
fired via `this.emit("fileSaved", ...)` — unreachable in fact, because
`saveExportedFile` throws first, so `files` stays empty in every run — and
the display chunks emitted via `this.emit("chunk", ...)`. -/
structure StreamState where
  fullContent : List Char
  tokenCount : Nat
  currentFileExport : Option (List Char)
  fileContent : List Char
  files : List (List Char × List Char)
  chunks : List (List Char)
deriving Repr, DecidableEq

/-- Loop state at entry: empty accumulators, no open export. -/
def initStreamState : StreamState :=
  { fullContent := [], tokenCount := 0, currentFileExport := none,
    fileContent := [], files := [], chunks := [] }

/-- `Failed to save file <filename>: path is not defined` — the error text
`saveExportedFile`'s own catch (line 447) rethrows on every call. -/
def saveFailMsg (filename : List Char) : List Char :=
  ("Failed to save file " : String).data ++ filename ++
    (": path is not defined" : String).data

/-- `AI streaming failed: ` prepended by the catch of
`generateStreamingResponse` (lines 420–423) when the loop aborts. -/
def streamAbortMsg (filename : List Char) : List Char :=
  ("AI streaming failed: " : String).data ++ saveFailMsg filename

/-- `AIClient.saveExportedFile` (lines 426–449).  The AIClient module
requires only `openai`, `events` and the logger — `path` and `fs` are never
bound — so the first statement
`path.join("exports", conversationId.toString())` throws
`ReferenceError: path is not defined` on every call, and the function's own
catch rethrows `Failed to save file <filename>: <message>`.  The directory
creation, the sanitization `replace(/[^a-zA-Z0-9.-]/g, "_")` and the write
(lines 429–437) are dead code: no argument is ever consumed and no file is
ever written. -/
def saveExportedFile (filename content : List Char) (conversationId : Nat) :
    Except (List Char) (List Char) :=
  Except.error (saveFailMsg filename)

/-- The part of the loop body after the opening-tag check falls through
(lines 360–397): the closing-tag branch, the accumulate branch and the
plain-content branch.  The closing branch's first statement is
`await this.saveExportedFile(currentFileExport, fileContent,
options.conversationId)`, which always throws (see `saveExportedFile`; its
error does not depend on its arguments), so matching a closing tag aborts
the loop before the `fileSaved` emit, the `[File saved: ...]` display
append, the state reset and the `chunk` emit — all of lines 368–397 in
that branch are unreachable.  The surviving branches append to the file
buffer or the display, bump `tokenCount` and emit the `chunk` event
(empty content while collecting). -/
def processChunkRest (s : StreamState) (content : List Char) :
    Except (List Char) StreamState :=
  if s.currentFileExport.isSome && containsSub closeMarker content then
    Except.error (saveFailMsg (s.currentFileExport.getD []))
  else if s.currentFileExport.isSome then
    Except.ok { s with fileContent := s.fileContent ++ content,
                       tokenCount := s.tokenCount + 1,
                       chunks := s.chunks ++ [[]] }
  else
    Except.ok { s with fullContent := s.fullContent ++ content,
                       tokenCount := s.tokenCount + 1,
                       chunks := s.chunks ++ [content] }

/-- One iteration of the `for await` loop on a fragment `content`
(lines 345–398).  When the fragment contains `<FileExport` and the opening
regex matches, the source captures the name, appends only the text before
`<FileExport` to the display accumulator, clears the file buffer and
`continue`s — skipping `tokenCount++` and the `chunk` emit, and discarding
everything after the opening marker in this fragment. -/
def processChunk (s : StreamState) (content : List Char) :
    Except (List Char) StreamState :=
  if containsSub openMarker content then
    match matchOpenTag content with
    | some nm =>
      Except.ok
        { s with currentFileExport := some nm,
                 fullContent := s.fullContent ++ beforeFirst openMarker content,
                 fileContent := [] }
    | none => processChunkRest s content
  else processChunkRest s content

/-- `AIClient.generateStreamingResponse` restricted to its observable
processing of the fragment sequence: the `for await` loop threaded through
`processChunk` (a thrown save failure aborts the loop), wrapped in the
catch (lines 420–423) that rethrows `AI streaming failed: <message>`.
There is no end-of-stream check: a loop that finishes returns normally
whatever state it ends in, an open export included. -/
def generateStreamingResponse (frags : List (List Char)) :
    Except (List Char) StreamState :=
  match frags.foldlM processChunk initStreamState with
  | Except.ok s => Except.ok s
  | Except.error e =>
    Except.error (("AI streaming failed: " : String).data ++ e)

/-- Decidable equality of `Except` results, to evaluate runs on concrete
inputs. -/
instance {ε α : Type} [DecidableEq ε] [DecidableEq α] :
    DecidableEq (Except ε α) := fun a b =>
  match a, b with
  | Except.ok x, Except.ok y =>
    match decEq x y with
    | isTrue h => isTrue (congrArg Except.ok h)
    | isFalse h => isFalse (fun hh => h (Except.ok.inj hh))
  | Except.error x, Except.error y =>
    match decEq x y with
    | isTrue h => isTrue (congrArg Except.error h)
    | isFalse h => isFalse (fun hh => h (Except.error.inj hh))
  | Except.ok _, Except.error _ => isFalse (fun hh => Except.noConfusion hh)
  | Except.error _, Except.ok _ => isFalse (fun hh => Except.noConfusion hh)

/-- The spec's example total text `<FileExport name="a.txt">hi</FileExport> done`. -/
def exampleTotal : List Char :=
  openTagHead ++ ("a.txt" : String).data ++ [dq, '>'] ++
    ("hi</FileExport> done" : String).data

/-- The spec's two-fragment split of `exampleTotal`: `<FileExp` and
`ort name="a.txt">hi</FileExport> done`. -/
def exampleFragA : List Char := ("<FileExp" : String).data

/-- Second fragment of the spec's split. -/
def exampleFragB : List Char :=
  ("ort name=" : String).data ++ [dq] ++ ("a.txt" : String).data ++
    [dq, '>'] ++ ("hi</FileExport> done" : String).data

example : exampleFragA ++ exampleFragB = exampleTotal := by decide

/-- The spec's incomplete-export fragment `<FileExport name="x">partial`. -/
def exampleOpenOnly : List Char :=
  openTagHead ++ ("x" : String).data ++ [dq, '>'] ++ ("partial" : String).data

/-- An opening-tag-only fragment `<FileExport name="a">`. -/
def exampleOpenFrag : List Char :=
  openTagHead ++ ("a" : String).data ++ [dq, '>']

/-- A closing-tag fragment `</FileExport>`. -/
def exampleCloseFrag : List Char := closeMarker

/-- C1: the claim asserts a lossless round trip and chunk-invariance for
the streaming export processor.  The source code violates both: fed the
single fragment `<FileExport name="a.txt">hi</FileExport> done`, the loop
matches the opening tag and `continue`s, so the bytes
`hi</FileExport> done` appear in no display increment and no file event
(they are lost, and the run ends inside an open export), while the same
total text split as `["<FileExp", "ort name=\"a.txt\">hi</FileExport> done"]`
produces the whole raw text as display — the two chunkings disagree. -/
theorem c1_round_trip_violated_at_example :
    generateStreamingResponse [exampleTotal] =
      Except.ok { fullContent := [], tokenCount := 0,
                  currentFileExport := some (("a.txt" : String).data),
                  fileContent := [], files := [], chunks := [] } ∧
    generateStreamingResponse [exampleFragA, exampleFragB] =
      Except.ok { fullContent := exampleTotal, tokenCount := 2,
                  currentFileExport := none, fileContent := [], files := [],
                  chunks := [exampleFragA, exampleFragB] } ∧
    generateStreamingResponse [exampleTotal] ≠
      generateStreamingResponse [exampleFragA, exampleFragB] := by
  refine ⟨?_, ?_, ?_⟩ <;> decide

/-- C2: the claim asserts that the two-fragment sequence
`["<FileExp", "ort name=\"a.txt\">hi</FileExport> done"]` yields no display
before `done`, one file event `(a.txt, hi)` and final display ` done`.
Evaluating the source loop: neither fragment contains `<FileExport` as a
substring, so the split opening marker is never recognised, the fragment
`<FileExp` is emitted as display immediately, no file event fires (and no
save is even attempted, since the closing branch requires an open export),
and the final accumulated display is the entire raw input including the
markers. -/
theorem c2_split_marker_example_divergence :
    generateStreamingResponse [exampleFragA, exampleFragB] =
      Except.ok { fullContent := exampleTotal, tokenCount := 2,
                  currentFileExport := none, fileContent := [], files := [],
                  chunks := [exampleFragA, exampleFragB] } := by
  decide

/-- C3 counterexample: the claim asserts that a stream ending in the
collecting state raises an incomplete-export failure.  On the single
fragment `<FileExport name="x">partial` the source loop returns normally
(`Except.ok`) with an export still open — no failure is raised. -/
theorem c3_counterexample_no_failure_raised :
    generateStreamingResponse [exampleOpenOnly] =
      Except.ok
        { fullContent := [], tokenCount := 0,
          currentFileExport := some (("x" : String).data),
          fileContent := [], files := [], chunks := [] } := by
  decide

/-- An error of `processChunkRest` can only come from its first branch:
the save failure on a matched closing tag. -/
theorem processChunkRest_error (s : StreamState) (c e : List Char)
    (h : processChunkRest s c = Except.error e) :
    e = saveFailMsg (s.currentFileExport.getD []) := by
  unfold processChunkRest at h
  split_ifs at h
  exact (Except.error.inj h).symm

/-- An error of `processChunk` can only be the save failure: the
opening-tag branch always succeeds. -/
theorem processChunk_error (s : StreamState) (c e : List Char)
    (h : processChunk s c = Except.error e) :
    e = saveFailMsg (s.currentFileExport.getD []) := by
  unfold processChunk at h
  split_ifs at h
  · cases hm : matchOpenTag c with
    | some nm =>
      rw [hm] at h
      exact Except.noConfusion h
    | none =>
      rw [hm] at h
      exact processChunkRest_error s c e h
  · exact processChunkRest_error s c e h

/-- Every error the streamed loop can raise is a file-save failure: the
loop body has no other throw site, in particular no incomplete-export
check anywhere. -/
theorem foldlM_processChunk_error :
    ∀ (frags : List (List Char)) (s : StreamState) (e : List Char),
      frags.foldlM processChunk s = Except.error e →
      ∃ nm, e = saveFailMsg nm := by
  intro frags
  induction frags with
  | nil =>
    intro s e h
    have h2 : (Except.ok s : Except (List Char) StreamState) =
        Except.error e := h
    exact Except.noConfusion h2
  | cons c cs ih =>
    intro s e h
    have h2 : (processChunk s c >>= fun s2 => cs.foldlM processChunk s2) =
        Except.error e := h
    cases hp : processChunk s c with
    | error e2 =>
      rw [hp] at h2
      have h3 : (Except.error e2 : Except (List Char) StreamState) =
          Except.error e := h2
      have he : e2 = e := Except.error.inj h3
      exact ⟨s.currentFileExport.getD [], he ▸ processChunk_error s c e2 hp⟩
    | ok s2 =>
      rw [hp] at h2
      have h3 : cs.foldlM processChunk s2 = Except.error e := h2
      exact ih s2 e h3

/-- C3 amended: the processor raises no incomplete-export failure.  Every
failure a run can raise is a file-save failure (surfaced as
`AI streaming failed: Failed to save file <name>: path is not defined`,
raised when a closing tag is matched) — there is no end-of-stream check —
and in the spec's example a stream ending while still inside the open
directive returns normally, with zero file-ready events and the
accumulated partial content discarded: it appears in neither the display
increments nor any file. -/
theorem c3_amended_incomplete_export_silent :
    (∀ (frags : List (List Char)) (e : List Char),
        generateStreamingResponse frags = Except.error e →
        ∃ nm, e = streamAbortMsg nm) ∧
    generateStreamingResponse [exampleOpenOnly] =
      Except.ok { fullContent := [], tokenCount := 0,
                  currentFileExport := some (("x" : String).data),
                  fileContent := [], files := [], chunks := [] } := by
  constructor
  · intro frags e h
    unfold generateStreamingResponse at h
    cases hf : frags.foldlM processChunk initStreamState with
    | ok s =>
      rw [hf] at h
      exact Except.noConfusion h
    | error e2 =>
      rw [hf] at h
      obtain ⟨nm, hnm⟩ := foldlM_processChunk_error frags initStreamState e2 hf
      refine ⟨nm, ?_⟩
      have he : ("AI streaming failed: " : String).data ++ e2 = e :=
        Except.error.inj h
      rw [← he, hnm]
      rfl
  · decide

/-- Concrete instantiation of `c3_amended_incomplete_export_silent`: the
run that opens an export and then meets its closing tag aborts with the
save failure, which has the save-failure shape. -/
theorem c3_amended_witness :
    ∃ nm, streamAbortMsg (("a" : String).data) = streamAbortMsg nm :=
  c3_amended_incomplete_export_silent.1 [exampleOpenFrag, exampleCloseFrag]
    (streamAbortMsg (("a" : String).data)) (by decide)

/-- A row of the `conversations` table (src/unnamed/part_000, schema lines
38–48).  Timestamps are modelled by a logical clock. -/
structure ConversationRow where
  id : Nat
  title : String
  parent_id : Option Nat
  thread_path : Option String
  created_at : Nat
  updated_at : Nat
deriving Repr, DecidableEq

/-- A row of the `messages` table (schema lines 50–61). -/
structure MessageRow where
  id : Nat
  conversation_id : Nat
  role : String
  content : String
  created_at : Nat
  token_count : Option Nat
  model : Option String
deriving Repr, DecidableEq

/-- The embedded relational store: both tables in rowid (insertion) order,
the autoincrement counters, and a logical clock producing strictly
increasing `CURRENT_TIMESTAMP` values, so that insertion order coincides
with `created_at` order. -/
structure DBState where
  conversations : List ConversationRow
  messages : List MessageRow
  nextConvId : Nat
  nextMsgId : Nat
  now : Nat
deriving Repr, DecidableEq

/-- A freshly initialised store (sqlite autoincrement ids start at 1). -/
def emptyDB : DBState :=
  { conversations := [], messages := [], nextConvId := 1, nextMsgId := 1,
    now := 0 }

/-- JS truthiness of an optional number (`null`/`undefined` and `0` are
falsy). -/
def jsTruthyNat : Option Nat → Bool
  | none => false
  | some n => n != 0

/-- JS truthiness of an optional string (`null`/`undefined` and the empty
string are falsy). -/
def jsTruthyStr : Option String → Bool
  | none => false
  | some s => s != ""

/-- `Database.getConversation` (lines 149–158):
`SELECT * FROM conversations WHERE id = ?` via `db.get`, which yields the
first matching row or `undefined` — no error when the id is absent. -/
def getConversation (db : DBState) (idv : Nat) : Option ConversationRow :=
  db.conversations.find? (fun c => c.id == idv)

/-- The defaulted title `Conversation <date>` (the locale date string is
modelled by the logical clock). -/
def defaultTitle (db : DBState) : String :=
  "Conversation " ++ Nat.repr db.now

/-- `Database.createConversation` (lines 84–114).  When `parentId` is truthy
the parent row is fetched and the child's `thread_path` is
`parent.thread_path + "." + parentId` when the parent's path is truthy, else
`parentId.toString()`; reading `thread_path` of an `undefined` parent throws
(modelled as `Except.error`).  Without a truthy parent the path stays
`undefined` (NULL).  Returns the updated store and the new row id. -/
def createConversation (db : DBState) (title : Option String)
    (parentId : Option Nat) : Except String (DBState × Nat) :=
  let threadPathE : Except String (Option String) :=
    if jsTruthyNat parentId then
      let pid := parentId.getD 0
      match getConversation db pid with
      | none => Except.error "TypeError: cannot read properties of undefined"
      | some parent =>
        Except.ok (some
          (if jsTruthyStr parent.thread_path then
            parent.thread_path.getD "" ++ "." ++ Nat.repr pid
          else Nat.repr pid))
    else Except.ok none
  match threadPathE with
  | Except.error e => Except.error e
  | Except.ok tp =>
    let row : ConversationRow :=
      { id := db.nextConvId,
        title := if jsTruthyStr title then title.getD "" else defaultTitle db,
        parent_id := parentId,
        thread_path := tp,
        created_at := db.now,
        updated_at := db.now }
    Except.ok
      ({ db with conversations := db.conversations ++ [row],
                 nextConvId := db.nextConvId + 1,
                 now := db.now + 1 },
       db.nextConvId)

/-- `Database.saveMessage` (lines 116–147): inserts the message row and
bumps the owning conversation's `updated_at` (an `UPDATE` matching no row is
a no-op, not an error).  Returns the updated store and the message id. -/
def saveMessage (db : DBState) (conversationId : Nat) (role content : String)
    (model : Option String) (tokenCount : Option Nat) : DBState × Nat :=
  let row : MessageRow :=
    { id := db.nextMsgId, conversation_id := conversationId, role := role,
      content := content, created_at := db.now, token_count := tokenCount,
      model := model }
  ({ db with
      messages := db.messages ++ [row],
      conversations := db.conversations.map
        (fun c => if c.id == conversationId then { c with updated_at := db.now }
                  else c),
      nextMsgId := db.nextMsgId + 1,
      now := db.now + 1 },
   db.nextMsgId)

/-- `Database.getConversationHistory` (lines 160–173):
`SELECT ... WHERE conversation_id = ? ORDER BY created_at ASC`.  Rows are
stored in `created_at` order (the clock increases at every insert), so the
insertion-order filter is exactly the SQL result; an absent id yields the
empty list, not an error. -/
def getConversationHistory (db : DBState) (idv : Nat) : List MessageRow :=
  db.messages.filter (fun m => m.conversation_id == idv)

/-- `Database.getConversationThread` (lines 195–214): returns `[]` when the
conversation is absent; when its `thread_path` is truthy, selects rows whose
`thread_path` begins with `<path>.<id>` (the `LIKE '<path>.<id>%'` match)
or whose id is the conversation itself, in `created_at` (insertion) order;
otherwise returns just the conversation. -/
def getConversationThread (db : DBState) (idv : Nat) : List ConversationRow :=
  match getConversation db idv with
  | none => []
  | some conv =>
    if jsTruthyStr conv.thread_path then
      let pat := conv.thread_path.getD "" ++ "." ++ Nat.repr idv
      db.conversations.filter (fun c =>
        (match c.thread_path with
         | some tp => startsWithL pat.data tp.data
         | none => false) || c.id == idv)
    else [conv]

/-- Conversation ids already stored are below the autoincrement counter
(true of every store the schema can produce). -/
def dbIdsBounded (db : DBState) : Prop :=
  ∀ c ∈ db.conversations, c.id < db.nextConvId

instance (db : DBState) : Decidable (dbIdsBounded db) :=
  List.decidableBAll _ db.conversations

/-- C4: a conversation created under a truthy, existing parent stores
`thread_path = parent.thread_path + "." + parentId` when the parent has a
(non-empty) thread path and `thread_path = parentId.toString()` when it has
none, and a conversation created without a parent stores no thread path. -/
theorem c4_thread_path_invariant :
    (∀ (db : DBState) (title : Option String) (pid : Nat)
        (parent : ConversationRow),
      dbIdsBounded db → 0 < pid →
      getConversation db pid = some parent →
      parent.thread_path ≠ some "" →
      ∃ db2 cid,
        createConversation db title (some pid) = Except.ok (db2, cid) ∧
        ∃ row, getConversation db2 cid = some row ∧
          row.parent_id = some pid ∧
          row.thread_path = some
            (match parent.thread_path with
             | some tp => tp ++ "." ++ Nat.repr pid
             | none => Nat.repr pid)) ∧
    (∀ (db : DBState) (title : Option String),
      dbIdsBounded db →
      ∃ db2 cid,
        createConversation db title none = Except.ok (db2, cid) ∧
        ∃ row, getConversation db2 cid = some row ∧
          row.parent_id = none ∧ row.thread_path = none) := by
  have hfind :
      ∀ (db : DBState) (row : ConversationRow) (db2 : DBState),
        dbIdsBounded db → row.id = db.nextConvId →
        db2.conversations = db.conversations ++ [row] →
        getConversation db2 db.nextConvId = some row := by
    intro db row db2 hwf hid hconv
    unfold getConversation
    rw [hconv, List.find?_append]
    have h1 : db.conversations.find? (fun c => c.id == db.nextConvId) = none := by
      rw [List.find?_eq_none]
      intro c hc
      have := hwf c hc
      simp only [beq_iff_eq]
      omega
    rw [h1]
    simp [hid]
  constructor
  · intro db title pid parent hwf hpos hfound hne
    have hpid : jsTruthyNat (some pid) = true := by
      simp [jsTruthyNat]
      omega
    refine ⟨{ db with
        conversations := db.conversations ++
          [{ id := db.nextConvId,
             title := if jsTruthyStr title then title.getD "" else defaultTitle db,
             parent_id := some pid,
             thread_path := some
               (if jsTruthyStr parent.thread_path then
                 parent.thread_path.getD "" ++ "." ++ Nat.repr pid
               else Nat.repr pid),
             created_at := db.now, updated_at := db.now }],
        nextConvId := db.nextConvId + 1,
        now := db.now + 1 }, db.nextConvId, ?_, ?_⟩
    · simp only [createConversation, hpid, hfound, if_true, Option.getD_some]
    · refine ⟨_, hfind db _ _ hwf rfl rfl, rfl, ?_⟩
      cases htp : parent.thread_path with
      | none => simp [jsTruthyStr, htp]
      | some tp =>
        have hne2 : tp ≠ "" := by
          intro h
          exact hne (by rw [htp, h])
        simp [jsTruthyStr, htp, hne2]
  · intro db title hwf
    refine ⟨{ db with
        conversations := db.conversations ++
          [{ id := db.nextConvId,
             title := if jsTruthyStr title then title.getD "" else defaultTitle db,
             parent_id := none,
             thread_path := none,
             created_at := db.now, updated_at := db.now }],
        nextConvId := db.nextConvId + 1,
        now := db.now + 1 }, db.nextConvId, ?_, ?_⟩
    · rfl
    · exact ⟨_, hfind db _ _ hwf rfl rfl, rfl, rfl⟩

/-- Concrete instantiation of `c4_thread_path_invariant`: in a store holding
a root conversation `1` (no thread path) and its child `2` (thread path
`1`), creating a conversation under parent `2` stores thread path `1.2`,
and creating a root stores none. -/
theorem c4_thread_path_witness :
    (∃ db2 cid,
      createConversation
        { conversations :=
            [{ id := 1, title := "a", parent_id := none, thread_path := none,
               created_at := 0, updated_at := 0 },
             { id := 2, title := "b", parent_id := some 1,
               thread_path := some "1", created_at := 1, updated_at := 1 }],
          messages := [], nextConvId := 3, nextMsgId := 1, now := 2 }
        none (some 2) = Except.ok (db2, cid) ∧
      ∃ row, getConversation db2 cid = some row ∧
        row.parent_id = some 2 ∧ row.thread_path = some "1.2") ∧
    (∃ db2 cid,
      createConversation emptyDB none none = Except.ok (db2, cid) ∧
      ∃ row, getConversation db2 cid = some row ∧
        row.parent_id = none ∧ row.thread_path = none) := by
  constructor
  · exact c4_thread_path_invariant.1
      { conversations :=
          [{ id := 1, title := "a", parent_id := none, thread_path := none,
             created_at := 0, updated_at := 0 },
           { id := 2, title := "b", parent_id := some 1,
             thread_path := some "1", created_at := 1, updated_at := 1 }],
        messages := [], nextConvId := 3, nextMsgId := 1, now := 2 }
      none 2
      { id := 2, title := "b", parent_id := some 1, thread_path := some "1",
        created_at := 1, updated_at := 1 }
      (by decide) (by decide) (by decide) (by decide)
  · exact c4_thread_path_invariant.2 emptyDB none (by decide)

/-- C7 counterexample: the claim asserts that referencing a nonexistent
conversation id fails with a NotFound condition.  On the empty store with
id `1`, the source operations instead return silently: `getConversation`
yields `undefined`, `getConversationHistory` yields `[]`, and
`getConversationThread` (whose body is literally
`if (!conversation) return []`) yields `[]` — none of them raises. -/
theorem c7_counterexample_silent_empty :
    getConversation emptyDB 1 = none ∧
    getConversationHistory emptyDB 1 = [] ∧
    getConversationThread emptyDB 1 = [] := by
  decide

/-- C7 amended: an operation referencing a conversation id absent from the
store (and referenced by no message row) silently returns an
empty/undefined result — `getConversation` returns `undefined`,
`getConversationHistory` and `getConversationThread` return the empty
list — rather than failing with a NotFound condition. -/
theorem c7_amended_operations_return_empty :
    ∀ (db : DBState) (idv : Nat),
      getConversation db idv = none →
      (∀ m ∈ db.messages, m.conversation_id ≠ idv) →
      getConversationHistory db idv = [] ∧
      getConversationThread db idv = [] := by
  intro db idv hconv hmsg
  constructor
  · unfold getConversationHistory
    rw [List.filter_eq_nil_iff]
    intro m hm
    have := hmsg m hm
    simp only [beq_iff_eq]
    exact this
  · unfold getConversationThread
    rw [hconv]

/-- Concrete instantiation of `c7_amended_operations_return_empty` at the
empty store and id 1. -/
theorem c7_amended_witness :
    getConversationHistory emptyDB 1 = [] ∧
    getConversationThread emptyDB 1 = [] :=
  c7_amended_operations_return_empty emptyDB 1 (by decide) (by decide)

/-- C8: the claim says the exported file is written at
`exports/<conversation-id>/<sanitized-filename>` with the declared filename
sanitized character-wise.  The code never writes any exported file:
`path` and `fs` are unbound in the AIClient module, so `saveExportedFile`
throws `ReferenceError: path is not defined` at its first statement on
every call — before the join, the sanitization or the write execute.
Evaluated at the failing input (filename `a.txt`, content `hi`,
conversation 1), and universally: no call ever returns a written path. -/
theorem c8_export_write_always_throws :
    saveExportedFile (("a.txt" : String).data) (("hi" : String).data) 1 =
      Except.error (saveFailMsg (("a.txt" : String).data)) ∧
    ∀ (filename content : List Char) (conversationId : Nat)
      (out : List Char),
      saveExportedFile filename content conversationId ≠ Except.ok out := by
  constructor
  · rfl
  · intro filename content conversationId out h
    exact Except.noConfusion h

/-- Result of `AIClient.generateResponse` as consumed by
`Controller.handleMessage` (content, model, token usage). -/
structure AIResponse where
  content : String
  model : Option String
  total_tokens : Nat
deriving Repr, DecidableEq

/-- Observable calls `Controller.handleMessage` makes on its collaborators
(screen and model access). -/
inductive CtrlEffect where
  | startLoading
  | stopLoading
  | updateThreadList
  | appendMessage (role content : String)
  | aiGenerate
  | updateStatus
  | showError (msg : String)
deriving Repr, DecidableEq

/-- `Controller` state relevant to message handling
(src/core/Controller.js, constructor lines 13–15 and `handleMessage`
lines 125–175). -/
structure CtrlState where
  isProcessingMessage : Bool
  currentConversationId : Option Nat
  currentMode : String
  db : DBState
deriving Repr, DecidableEq

/-- `Controller.handleMessage` (lines 125–175).  The reentrancy guard
`if (this.isProcessingMessage) return;` drops the submit outright: no
state change and no collaborator call.  Otherwise the handler sets the
flag, creates a conversation when none is current (JS truthiness: a `null`
id), persists the user message, calls the model-access collaborator
(outcome passed in as `resp`), persists the assistant message on success or
shows an error on failure, and finally clears the flag.  A parentless
`createConversation` cannot fail, so its error branch is unreachable. -/
def handleMessage (content : String) (resp : Except String AIResponse)
    (s : CtrlState) : CtrlState × List CtrlEffect :=
  if s.isProcessingMessage then (s, [])
  else
    let s1 : CtrlState := { s with isProcessingMessage := true }
    let created :=
      if jsTruthyNat s1.currentConversationId then
        (s1.db, s1.currentConversationId.getD 0, ([] : List CtrlEffect))
      else
        match createConversation s1.db none none with
        | Except.ok (db2, c) => (db2, c, [CtrlEffect.updateThreadList])
        | Except.error _ => (s1.db, 0, ([] : List CtrlEffect))
    let db1 := created.1
    let cid := created.2.1
    let effsCreate := created.2.2
    let db2 := (saveMessage db1 cid "user" content none none).1
    match resp with
    | Except.ok r =>
      let db3 := (saveMessage db2 cid "assistant" r.content r.model
        (some r.total_tokens)).1
      ({ s1 with isProcessingMessage := false,
                 currentConversationId := some cid, db := db3 },
       [CtrlEffect.startLoading] ++ effsCreate ++
         [CtrlEffect.appendMessage "user" content, CtrlEffect.aiGenerate,
          CtrlEffect.appendMessage "assistant" r.content,
          CtrlEffect.updateStatus, CtrlEffect.stopLoading])
    | Except.error _ =>
      ({ s1 with isProcessingMessage := false,
                 currentConversationId := some cid, db := db2 },
       [CtrlEffect.startLoading] ++ effsCreate ++
         [CtrlEffect.appendMessage "user" content, CtrlEffect.aiGenerate,
          CtrlEffect.showError "Failed to process message",
          CtrlEffect.stopLoading])

/-- C5: while a response generation is in flight
(`isProcessingMessage = true`), a submit intent is a no-op — the returned
state is unchanged (in particular the message table, hence the
conversation's message count), no effect is emitted, and in particular no
model-access call (`aiGenerate`) is made. -/
theorem c5_reentrancy_guard :
    ∀ (content : String) (resp : Except String AIResponse) (s : CtrlState),
      s.isProcessingMessage = true →
      handleMessage content resp s = (s, []) ∧
      (handleMessage content resp s).1.db.messages = s.db.messages ∧
      CtrlEffect.aiGenerate ∉ (handleMessage content resp s).2 := by
  intro content resp s h
  have hm : handleMessage content resp s = (s, []) := by
    unfold handleMessage
    rw [if_pos h]
  exact ⟨hm, by rw [hm], by rw [hm]; simp⟩

/-- Concrete instantiation of `c5_reentrancy_guard`: a busy controller on
the empty store drops a submit. -/
theorem c5_reentrancy_witness :
    handleMessage "hello"
      (Except.ok { content := "resp", model := none, total_tokens := 1 })
      { isProcessingMessage := true, currentConversationId := none,
        currentMode := "normal", db := emptyDB } =
      ({ isProcessingMessage := true, currentConversationId := none,
         currentMode := "normal", db := emptyDB }, []) :=
  (c5_reentrancy_guard "hello"
    (Except.ok { content := "resp", model := none, total_tokens := 1 })
    { isProcessingMessage := true, currentConversationId := none,
      currentMode := "normal", db := emptyDB } rfl).1

/-- A key event as delivered by the terminal widget layer: the normalised
key name (`key.full`) and the printable character (`ch`), absent for
special keys. -/
structure Key where
  full : String
  ch : Option String
deriving Repr, DecidableEq

/-- Observable emissions of the `VimHandler`: mode-change events, insert
input, named intents with an optional argument, reported errors, and the
help screen. -/
inductive VimEffect where
  | modeChange (mode : String)
  | input (ch : String)
  | intent (name : String) (arg : Option String)
  | showError (msg : String)
  | showHelp
deriving Repr, DecidableEq

/-- `VimHandler` state (src/core/ui/VimHandler.js, constructor lines
14–33), together with the chat-box scroll state the handler mutates through
the screen collaborator. -/
structure VimState where
  mode : String
  commandBuffer : String
  searchBuffer : String
  lastSearch : String
  visualStart : Option Int
  visualEnd : Option Int
  yankRegister : String
  marks : List (String × Int)
  commandHistory : List String
  commandHistoryIndex : Int
  scroll : Int
  scrollHeight : Int
  chatHeight : Int
deriving Repr, DecidableEq

/-- The freshly constructed handler: `normal` mode, empty buffers, no
marks, empty history with index −1. -/
def initVimState : VimState :=
  { mode := "normal", commandBuffer := "", searchBuffer := "",
    lastSearch := "", visualStart := none, visualEnd := none,
    yankRegister := "", marks := [], commandHistory := [],
    commandHistoryIndex := -1, scroll := 0, scrollHeight := 0,
    chatHeight := 10 }


/-- `this.mode = m` as a state update. -/
@[simps]
def withMode (s : VimState) (m : String) : VimState := { s with mode := m }

/-- `this.commandBuffer = b` as a state update. -/
@[simps]
def withCmdBuf (s : VimState) (b : String) : VimState :=
  { s with commandBuffer := b }

/-- `this.searchBuffer = b` as a state update. -/
@[simps]
def withSearchBuf (s : VimState) (b : String) : VimState :=
  { s with searchBuffer := b }

/-- Scroll-position mutation through the chat box. -/
@[simps]
def withScroll (s : VimState) (v : Int) : VimState := { s with scroll := v }

/-- `this.visualStart = v` as a state update. -/
@[simps]
def withVisualStart (s : VimState) (v : Option Int) : VimState :=
  { s with visualStart := v }

/-- `this.visualEnd = v` as a state update. -/
@[simps]
def withVisualEnd (s : VimState) (v : Option Int) : VimState :=
  { s with visualEnd := v }

/-- Command-history mutation (entries and index). -/
@[simps]
def withHistory (s : VimState) (h : List String) (i : Int) : VimState :=
  { s with commandHistory := h, commandHistoryIndex := i }

/-- `this.lastSearch = q` as a state update. -/
@[simps]
def withLastSearch (s : VimState) (q : String) : VimState :=
  { s with lastSearch := q }

/-- `setMode` (lines 265–271): records the mode and emits a `modeChange`
event. -/
@[simps]
def setMode (s : VimState) (m : String) : VimState × List VimEffect :=
  (withMode s m, [VimEffect.modeChange m])

/-- The caught-and-reported TypeError text for the `m` / jump-to-mark keys:
`waitForMarkKey` is referenced (lines 117, 123) but never defined on the
class, so invoking it throws, and the keypress handler's catch (lines
59–62) reports the message via `showError`. -/
def keyErrWaitForMark : String :=
  "Key handling error: this.waitForMarkKey is not a function"

/-- Same for `yankCurrentLine` (line 134), also never defined. -/
def keyErrYankLine : String :=
  "Key handling error: this.yankCurrentLine is not a function"

/-- Same for `paste` (line 137), also never defined. -/
def keyErrPaste : String :=
  "Key handling error: this.paste is not a function"

/-- Same for `yankSelection` (line 166), also never defined. -/
def keyErrYankSel : String :=
  "Key handling error: this.yankSelection is not a function"

/-- Same for `deleteSelection` (line 170), also never defined. -/
def keyErrDeleteSel : String :=
  "Key handling error: this.deleteSelection is not a function"

/-- `executeCommand` (lines 233–259): strips the leading `:`, splits on
spaces, dispatches on the first token (the `threadChange` argument is
passed through raw; the source applies `parseInt`, which does not affect
which intent fires), unknown commands are reported. -/
def executeCommand (command : String) : List VimEffect :=
  let cmd := command.drop 1
  let parts := cmd.splitOn " "
  let head := parts.getD 0 ""
  if head = "q" ∨ head = "quit" then [VimEffect.intent "quit" none]
  else if head = "w" ∨ head = "write" then [VimEffect.intent "save" none]
  else if head = "model" then [VimEffect.intent "modelChange" (parts.get? 1)]
  else if head = "thread" then [VimEffect.intent "threadChange" (parts.get? 1)]
  else if head = "help" then [VimEffect.showHelp]
  else [VimEffect.showError ("Unknown command: " ++ head)]

/-- `handleNormalMode` (lines 66–142).  The mark and yank/paste cases call
methods that do not exist, so they throw before any state mutation; the
dispatcher's catch reports the error and nothing else happens. -/
def handleNormalMode (s : VimState) (k : Key) : VimState × List VimEffect :=
  if k.full = "i" then setMode s "insert"
  else if k.full = "v" then
    let r := setMode s "visual"
    (withVisualStart r.1 (some s.scroll), r.2)
  else if k.full = ":" then
    let r := setMode s "command"
    (withCmdBuf r.1 ":", r.2)
  else if k.full = "/" then
    let r := setMode s "search"
    (withSearchBuf r.1 "/", r.2)
  else if k.full = "j" ∨ k.full = "down" then
    (withScroll s (s.scroll + 1), [])
  else if k.full = "k" ∨ k.full = "up" then
    (withScroll s (s.scroll - 1), [])
  else if k.full = "g g" then (withScroll s 0, [])
  else if k.full = "G" then (withScroll s s.scrollHeight, [])
  else if k.full = "ctrl-d" then
    (withScroll s (s.scroll + s.chatHeight / 2), [])
  else if k.full = "ctrl-u" then
    (withScroll s (s.scroll - s.chatHeight / 2), [])
  else if k.full = "H" then (s, [VimEffect.intent "previousThread" none])
  else if k.full = "L" then (s, [VimEffect.intent "nextThread" none])
  else if k.full = "m" then (s, [VimEffect.showError keyErrWaitForMark])
  else if k.full = String.mk [squote] then
    (s, [VimEffect.showError keyErrWaitForMark])
  else if k.full = "y y" then (s, [VimEffect.showError keyErrYankLine])
  else if k.full = "p" then (s, [VimEffect.showError keyErrPaste])
  else (s, [])

/-- `handleInsertMode` (lines 144–152): escape returns to normal, anything
else is forwarded as input. -/
def handleInsertMode (s : VimState) (k : Key) : VimState × List VimEffect :=
  if k.full = "escape" then setMode s "normal"
  else (s, [VimEffect.input (k.ch.getD "")])

/-- `handleVisualMode` (lines 154–174): escape returns to normal and clears
the selection; any other key first extends `visualEnd` to the current
scroll; `y`/`d` then call `yankSelection`/`deleteSelection`, which do not
exist, so they throw (after the `visualEnd` mutation) and the mode change
to normal on those keys is never reached. -/
def handleVisualMode (s : VimState) (k : Key) : VimState × List VimEffect :=
  if k.full = "escape" then
    let r := setMode s "normal"
    (withVisualEnd (withVisualStart r.1 none) none, r.2)
  else
    let s2 := withVisualEnd s (some s.scroll)
    if k.full = "y" then (s2, [VimEffect.showError keyErrYankSel])
    else if k.full = "d" then (s2, [VimEffect.showError keyErrDeleteSel])
    else (s2, [])

/-- `handleCommandMode` (lines 176–209): escape clears the buffer and
returns to normal; enter executes the buffer, *unconditionally* pushes the
raw buffer onto the history, sets the history index past the end, clears
the buffer and returns to normal; backspace drops the last character;
up/down step the history index within bounds, copying (not moving) the
selected entry into the buffer; a printable key appends. -/
def handleCommandMode (s : VimState) (k : Key) : VimState × List VimEffect :=
  if k.full = "escape" then
    let r := setMode s "normal"
    (withCmdBuf r.1 "", r.2)
  else if k.full = "enter" then
    let effs := executeCommand s.commandBuffer
    let hist := s.commandHistory ++ [s.commandBuffer]
    let r := setMode (withHistory s hist (Int.ofNat hist.length)) "normal"
    (withCmdBuf r.1 "", effs ++ r.2)
  else if k.full = "backspace" then
    (withCmdBuf s (s.commandBuffer.dropRight 1), [])
  else if k.full = "up" then
    if 0 < s.commandHistoryIndex then
      let i := s.commandHistoryIndex - 1
      (withCmdBuf (withHistory s s.commandHistory i)
        (s.commandHistory.getD i.toNat ""), [])
    else (s, [])
  else if k.full = "down" then
    if s.commandHistoryIndex < Int.ofNat s.commandHistory.length - 1 then
      let i := s.commandHistoryIndex + 1
      (withCmdBuf (withHistory s s.commandHistory i)
        (s.commandHistory.getD i.toNat ""), [])
    else (s, [])
  else
    match k.ch with
    | some c =>
      if c ≠ "" then (withCmdBuf s (s.commandBuffer ++ c), [])
      else (s, [])
    | none => (s, [])

/-- `handleSearchMode` (lines 211–231): escape clears and returns to
normal; enter records the query (buffer without its sigil), emits the
search intent, clears the buffer and returns to normal; backspace drops
the last character; a printable key appends. -/
def handleSearchMode (s : VimState) (k : Key) : VimState × List VimEffect :=
  if k.full = "escape" then
    let r := setMode s "normal"
    (withSearchBuf r.1 "", r.2)
  else if k.full = "enter" then
    let q := s.searchBuffer.drop 1
    let r := setMode (withLastSearch s q) "normal"
    (withSearchBuf r.1 "",
     [VimEffect.intent "search" (some q)] ++ r.2)
  else if k.full = "backspace" then
    (withSearchBuf s (s.searchBuffer.dropRight 1), [])
  else
    match k.ch with
    | some c =>
      if c ≠ "" then (withSearchBuf s (s.searchBuffer ++ c), [])
      else (s, [])
    | none => (s, [])

/-- The keypress dispatcher (lines 36–64): switch on the current mode; a
mode outside the five cases would fall through doing nothing. -/
def vimStep (s : VimState) (k : Key) : VimState × List VimEffect :=
  if s.mode = "normal" then handleNormalMode s k
  else if s.mode = "insert" then handleInsertMode s k
  else if s.mode = "visual" then handleVisualMode s k
  else if s.mode = "command" then handleCommandMode s k
  else if s.mode = "search" then handleSearchMode s k
  else (s, [])

/-- Run a key-event sequence from the freshly constructed handler. -/
def runVim (keys : List Key) : VimState :=
  keys.foldl (fun s k => (vimStep s k).1) initVimState

/-- Machine invariant: the mode is one of the five defined modes, the
command/search buffers are empty outside their modes, and the visual
selection is absent outside visual mode. -/
def VimInv (s : VimState) : Prop :=
  (s.mode = "normal" ∨ s.mode = "insert" ∨ s.mode = "visual" ∨
    s.mode = "command" ∨ s.mode = "search") ∧
  (s.mode ≠ "command" → s.commandBuffer = "") ∧
  (s.mode ≠ "search" → s.searchBuffer = "") ∧
  (s.mode ≠ "visual" → s.visualStart = none ∧ s.visualEnd = none)

instance (s : VimState) : Decidable (VimInv s) := by
  unfold VimInv
  infer_instance

set_option maxHeartbeats 1600000

/-- Every keypress preserves the machine invariant. -/
theorem vimStep_preserves (s : VimState) (k : Key) (h : VimInv s) :
    VimInv (vimStep s k).1 := by
  obtain ⟨h5, hc, hs2, hv⟩ := h
  rcases h5 with hm | hm | hm | hm | hm
  · have hcb : s.commandBuffer = "" := hc (by simp [hm])
    have hsb : s.searchBuffer = "" := hs2 (by simp [hm])
    have hvv := hv (by simp [hm])
    simp only [vimStep]
    rw [if_pos hm]
    unfold handleNormalMode
    by_cases h1 : k.full = "i"
    · rw [if_pos h1]; simp [VimInv, hcb, hsb, hvv.1, hvv.2, hm]
    rw [if_neg h1]
    by_cases h2 : k.full = "v"
    · rw [if_pos h2]; simp [VimInv, hcb, hsb, hvv.1, hvv.2, hm]
    rw [if_neg h2]
    by_cases h3 : k.full = ":"
    · rw [if_pos h3]; simp [VimInv, hcb, hsb, hvv.1, hvv.2, hm]
    rw [if_neg h3]
    by_cases h4 : k.full = "/"
    · rw [if_pos h4]; simp [VimInv, hcb, hsb, hvv.1, hvv.2, hm]
    rw [if_neg h4]
    by_cases h5 : k.full = "j" ∨ k.full = "down"
    · rw [if_pos h5]; simp [VimInv, hcb, hsb, hvv.1, hvv.2, hm]
    rw [if_neg h5]
    by_cases h6 : k.full = "k" ∨ k.full = "up"
    · rw [if_pos h6]; simp [VimInv, hcb, hsb, hvv.1, hvv.2, hm]
    rw [if_neg h6]
    by_cases h7 : k.full = "g g"
    · rw [if_pos h7]; simp [VimInv, hcb, hsb, hvv.1, hvv.2, hm]
    rw [if_neg h7]
    by_cases h8 : k.full = "G"
    · rw [if_pos h8]; simp [VimInv, hcb, hsb, hvv.1, hvv.2, hm]
    rw [if_neg h8]
    by_cases h9 : k.full = "ctrl-d"
    · rw [if_pos h9]; simp [VimInv, hcb, hsb, hvv.1, hvv.2, hm]
    rw [if_neg h9]
    by_cases h10 : k.full = "ctrl-u"
    · rw [if_pos h10]; simp [VimInv, hcb, hsb, hvv.1, hvv.2, hm]
    rw [if_neg h10]
    by_cases h11 : k.full = "H"
    · rw [if_pos h11]; simp [VimInv, hcb, hsb, hvv.1, hvv.2, hm]
    rw [if_neg h11]
    by_cases h12 : k.full = "L"
    · rw [if_pos h12]; simp [VimInv, hcb, hsb, hvv.1, hvv.2, hm]
    rw [if_neg h12]
    by_cases h13 : k.full = "m"
    · rw [if_pos h13]; simp [VimInv, hcb, hsb, hvv.1, hvv.2, hm]
    rw [if_neg h13]
    by_cases h14 : k.full = String.mk [squote]
    · rw [if_pos h14]; simp [VimInv, hcb, hsb, hvv.1, hvv.2, hm]
    rw [if_neg h14]
    by_cases h15 : k.full = "y y"
    · rw [if_pos h15]; simp [VimInv, hcb, hsb, hvv.1, hvv.2, hm]
    rw [if_neg h15]
    by_cases h16 : k.full = "p"
    · rw [if_pos h16]; simp [VimInv, hcb, hsb, hvv.1, hvv.2, hm]
    rw [if_neg h16]
    simp [VimInv, hcb, hsb, hvv.1, hvv.2, hm]
  · have hcb : s.commandBuffer = "" := hc (by simp [hm])
    have hsb : s.searchBuffer = "" := hs2 (by simp [hm])
    have hvv := hv (by simp [hm])
    simp only [vimStep]
    rw [if_neg (by simp [hm]), if_pos hm]
    unfold handleInsertMode
    split_ifs <;> simp [VimInv, hcb, hsb, hvv.1, hvv.2, hm]
  · have hcb : s.commandBuffer = "" := hc (by simp [hm])
    have hsb : s.searchBuffer = "" := hs2 (by simp [hm])
    simp only [vimStep]
    rw [if_neg (by simp [hm]), if_neg (by simp [hm]), if_pos hm]
    unfold handleVisualMode
    split_ifs <;> simp [VimInv, hcb, hsb, hm]
  · have hsb : s.searchBuffer = "" := hs2 (by simp [hm])
    have hvv := hv (by simp [hm])
    simp only [vimStep]
    rw [if_neg (by simp [hm]), if_neg (by simp [hm]), if_neg (by simp [hm]),
      if_pos hm]
    unfold handleCommandMode
    cases k.ch <;> split_ifs <;> simp [VimInv, hsb, hvv.1, hvv.2, hm] <;>
      split_ifs <;> simp [VimInv, hsb, hvv.1, hvv.2, hm]
  · have hcb : s.commandBuffer = "" := hc (by simp [hm])
    have hvv := hv (by simp [hm])
    simp only [vimStep]
    rw [if_neg (by simp [hm]), if_neg (by simp [hm]), if_neg (by simp [hm]),
      if_neg (by simp [hm]), if_pos hm]
    unfold handleSearchMode
    cases k.ch <;> split_ifs <;> simp [VimInv, hcb, hvv.1, hvv.2, hm] <;>
      split_ifs <;> simp [VimInv, hcb, hvv.1, hvv.2, hm]

/-- C6: from the initial state, any sequence of key events leaves the
machine in one of the five defined modes (indeed satisfying the full
invariant), and an escape key in any non-normal mode returns it to
`normal` with the in-progress buffers — command text, search text, visual
selection — all cleared. -/
theorem c6_modal_machine :
    (∀ keys : List Key, VimInv (runVim keys)) ∧
    (∀ (s : VimState) (k : Key), VimInv s → s.mode ≠ "normal" →
      k.full = "escape" →
      (vimStep s k).1.mode = "normal" ∧
      (vimStep s k).1.commandBuffer = "" ∧
      (vimStep s k).1.searchBuffer = "" ∧
      (vimStep s k).1.visualStart = none ∧
      (vimStep s k).1.visualEnd = none) := by
  constructor
  · intro keys
    have gen : ∀ (ks : List Key) (s : VimState), VimInv s →
        VimInv (ks.foldl (fun s k => (vimStep s k).1) s) := by
      intro ks
      induction ks with
      | nil => intro s hs; exact hs
      | cons a as ih =>
        intro s hs
        exact ih _ (vimStep_preserves s a hs)
    exact gen keys initVimState (by decide)
  · intro s k hI hnn hesc
    obtain ⟨h5, hc, hs2, hv⟩ := hI
    rcases h5 with hm | hm | hm | hm | hm
    · exact absurd hm hnn
    · have hcb := hc (by simp [hm])
      have hsb := hs2 (by simp [hm])
      have hvv := hv (by simp [hm])
      simp only [vimStep]
      rw [if_neg (by simp [hm]), if_pos hm]
      unfold handleInsertMode
      rw [if_pos hesc]
      simp [hcb, hsb, hvv.1, hvv.2]
    · have hcb := hc (by simp [hm])
      have hsb := hs2 (by simp [hm])
      simp only [vimStep]
      rw [if_neg (by simp [hm]), if_neg (by simp [hm]), if_pos hm]
      unfold handleVisualMode
      rw [if_pos hesc]
      simp [hcb, hsb]
    · have hsb := hs2 (by simp [hm])
      have hvv := hv (by simp [hm])
      simp only [vimStep]
      rw [if_neg (by simp [hm]), if_neg (by simp [hm]), if_neg (by simp [hm]),
        if_pos hm]
      unfold handleCommandMode
      rw [if_pos hesc]
      simp [hsb, hvv.1, hvv.2]
    · have hcb := hc (by simp [hm])
      have hvv := hv (by simp [hm])
      simp only [vimStep]
      rw [if_neg (by simp [hm]), if_neg (by simp [hm]), if_neg (by simp [hm]),
        if_neg (by simp [hm]), if_pos hm]
      unfold handleSearchMode
      rw [if_pos hesc]
      simp [hcb, hvv.1, hvv.2]

/-- Concrete instantiation of `c6_modal_machine`: the empty key sequence
satisfies the invariant, and escape from command mode (entered via `:`)
returns to normal with all buffers clear. -/
theorem c6_modal_machine_witness :
    VimInv (runVim []) ∧
    ((vimStep (runVim [{ full := ":", ch := some ":" }])
        { full := "escape", ch := none }).1.mode = "normal" ∧
      (vimStep (runVim [{ full := ":", ch := some ":" }])
        { full := "escape", ch := none }).1.commandBuffer = "" ∧
      (vimStep (runVim [{ full := ":", ch := some ":" }])
        { full := "escape", ch := none }).1.searchBuffer = "" ∧
      (vimStep (runVim [{ full := ":", ch := some ":" }])
        { full := "escape", ch := none }).1.visualStart = none ∧
      (vimStep (runVim [{ full := ":", ch := some ":" }])
        { full := "escape", ch := none }).1.visualEnd = none) :=
  ⟨c6_modal_machine.1 [],
   c6_modal_machine.2 (runVim [{ full := ":", ch := some ":" }])
     { full := "escape", ch := none } (by decide) (by decide) rfl⟩

/-- C9 counterexample: the claim says enter appends the raw buffer to the
command history if and only if it differs from the most recent entry.
Submitting `:q` twice in a row (keys `:`,`q`,enter, `:`,`q`,enter) yields
the history `[":q", ":q"]` — the second enter appended even though the
buffer equalled the most recent entry, because the source pushes
unconditionally (line 184). -/
theorem c9_counterexample_duplicate_push :
    (runVim [{ full := ":", ch := some ":" }, { full := "q", ch := some "q" },
             { full := "enter", ch := none },
             { full := ":", ch := some ":" }, { full := "q", ch := some "q" },
             { full := "enter", ch := none }]).commandHistory =
      [":q", ":q"] ∧
    (runVim [{ full := ":", ch := some ":" }, { full := "q", ch := some "q" },
             { full := "enter", ch := none }]).commandHistory = [":q"] := by
  decide

/-- C9 amended: in command mode, pressing enter always appends the raw
buffer to the command history (even when it equals the most recent entry),
and stepping through history with the up/down keys never mutates the
history list. -/
theorem c9_amended_history_semantics :
    ∀ (s : VimState) (k : Key), s.mode = "command" →
      (k.full = "enter" →
        (vimStep s k).1.commandHistory =
          s.commandHistory ++ [s.commandBuffer]) ∧
      ((k.full = "up" ∨ k.full = "down") →
        (vimStep s k).1.commandHistory = s.commandHistory) := by
  intro s k hm
  constructor
  · intro he
    simp only [vimStep]
    rw [if_neg (by simp [hm]), if_neg (by simp [hm]), if_neg (by simp [hm]),
      if_pos hm]
    unfold handleCommandMode
    rw [if_neg (by simp [he]), if_pos he]
    simp
  · intro hud
    simp only [vimStep]
    rw [if_neg (by simp [hm]), if_neg (by simp [hm]), if_neg (by simp [hm]),
      if_pos hm]
    unfold handleCommandMode
    rcases hud with hu | hd
    · rw [if_neg (by simp [hu]), if_neg (by simp [hu]), if_neg (by simp [hu]),
        if_pos hu]
      split_ifs <;> simp
    · rw [if_neg (by simp [hd]), if_neg (by simp [hd]), if_neg (by simp [hd]),
        if_neg (by simp [hd]), if_pos hd]
      split_ifs <;> simp

/-- Concrete instantiation of `c9_amended_history_semantics` right after
entering command mode with `:`. -/
theorem c9_amended_witness :
    (vimStep (runVim [{ full := ":", ch := some ":" }])
        { full := "enter", ch := none }).1.commandHistory =
      (runVim [{ full := ":", ch := some ":" }]).commandHistory ++
        [(runVim [{ full := ":", ch := some ":" }]).commandBuffer] ∧
    (vimStep (runVim [{ full := ":", ch := some ":" }])
        { full := "up", ch := none }).1.commandHistory =
      (runVim [{ full := ":", ch := some ":" }]).commandHistory :=
  ⟨(c9_amended_history_semantics (runVim [{ full := ":", ch := some ":" }])
      { full := "enter", ch := none } (by decide)).1 rfl,
   (c9_amended_history_semantics (runVim [{ full := ":", ch := some ":" }])
      { full := "up", ch := none } (by decide)).2 (Or.inl rfl)⟩

/-- C10: the claim says the jump-to-mark two-key sequence with a never-set
mark key is a *silent* no-op.  In the source, pressing the jump-to-mark key
itself already throws (`waitForMarkKey` is never defined), and the keypress
handler catches the TypeError and *reports it via showError* — so no
mark-key is ever consumed; the mark registry and scroll position are indeed
unchanged, but an error is reported, and the follow-up key is handled as an
ordinary normal-mode key. -/
theorem c10_mark_jump_reports_error :
    vimStep initVimState
        { full := String.mk [squote], ch := some (String.mk [squote]) } =
      (initVimState, [VimEffect.showError keyErrWaitForMark]) ∧
    (runVim [{ full := String.mk [squote], ch := some (String.mk [squote]) },
             { full := "a", ch := some "a" }]).marks = [] ∧
    (runVim [{ full := String.mk [squote], ch := some (String.mk [squote]) },
             { full := "a", ch := some "a" }]).scroll = 0 := by
  decide
